import Mathlib

/-!
Verification of the node-polling core of k8eraid (`pkgs/queries/node.go`).

The Go functions `PollNode` and `checkNode` are embedded shallowly:

* the Kubernetes client (`clientset.CoreV1().Nodes().Get/List`) becomes a
  `Cluster` record of two fetch functions returning `Except`;
* the alert dispatch function `alertFn` and the fetch calls are recorded in a
  trace of `Event`s; `PollNode` returns the trace paired with the optional
  error message (`*PollErr` in Go, `none` standing for a `nil` error);
* `time.Now().Unix()` becomes an explicit `nowSeconds : Int` parameter
  (the poll's wall-clock time), and Go `int64` arithmetic becomes `Int`
  (the values involved are timestamps, nowhere near overflow);
* `int32(len(nodes.Items))` keeps its two's-complement truncation via
  `toInt32`.
-/

namespace K8eraid

/-- A node status condition as used by `checkNode`: the condition type string
(`Ready`, `OutOfDisk`, `MemoryPressure`, `DiskPressure`, or anything else) and
its `LastTransitionTime` as Unix seconds. -/
structure NodeCondition where
  type : String
  lastTransitionTime : Int
  deriving Repr, DecidableEq

/-- The slice of a Kubernetes node object that `checkNode` reads: its name,
its `ObjectMeta.CreationTimestamp` as Unix seconds, and the ordered list of
status conditions. -/
structure Node where
  name : String
  creationTimestamp : Int
  conditions : List NodeCondition
  deriving Repr, DecidableEq

/-- Modelled from the spec: the `reportStatus` sub-record of the alert
specification (the `types` package is not part of the analysed sources).
Per-condition opt-in booleans, the `pendingThreshold` in seconds (Go `int64`,
compared against an `int64` age difference) and `minNodes` (Go `int32`,
compared against `int32(len(nodes.Items))`). -/
structure NodeReportStatus where
  nodeReady : Bool
  nodeOutOfDisk : Bool
  nodeMemoryPressure : Bool
  nodeDiskPressure : Bool
  pendingThreshold : Int
  minNodes : Int
  deriving Repr, DecidableEq

/-- Modelled from the spec: `types.NodeAlertSpec` (the `types` package is not
part of the analysed sources); the fields are exactly those `node.go` reads. -/
structure NodeAlertSpec where
  name : String
  nodeFilter : String
  reportStatus : NodeReportStatus
  alerterType : String
  alerterName : String
  deriving Repr, DecidableEq

/-- Go `int32(n)` applied to a (non-negative) length: reduce modulo 2^32 and
reinterpret in two's complement. -/
def toInt32 (n : Nat) : Int :=
  let m : Nat := n % 2 ^ 32
  if m < 2 ^ 31 then (m : Int) else (m : Int) - 2 ^ 32

/-- An observable call made by the poll: a `Get` of a node by name, a `List`
with a label selector, or an invocation of the alert dispatch function
(`alertFn(alerterType, alerterName, message, alertersConfig)`; the opaque
`alertersConfig` is passed through unchanged and omitted from the event). -/
inductive Event where
  | fetchByName (name : String)
  | listNodes (selector : String)
  | dispatch (alerterType alerterName message : String)
  deriving Repr, DecidableEq

/-- `true` exactly on dispatch events. -/
def Event.isDispatch : Event → Bool
  | .dispatch _ _ _ => true
  | _ => false

/-- `true` exactly on fetch-by-name events. -/
def Event.isFetchByName : Event → Bool
  | .fetchByName _ => true
  | _ => false

/-- The message of a dispatch event, if any. -/
def Event.message : Event → Option String
  | .dispatch _ _ m => some m
  | _ => none

/-- The cluster fetch capability: `Get` a node by exact name, or `List` nodes
by label selector; either can fail with an error message. -/
structure Cluster where
  getNode : String → Except String Node
  listNodes : String → Except String (List Node)

/-- Message of the Ready-condition alert; `fmt.Sprint` on string operands
concatenates without separators. -/
def readyMsg (specName : String) : String :=
  "Node" ++ specName ++ "has changed ready status since last poll and may be restarting!"

/-- Message of the OutOfDisk-condition alert. -/
def outOfDiskMsg (specName : String) : String :=
  "Node" ++ specName ++ "has changed OutOfDisk status since last poll and may have observed disk space issues!"

/-- Message of the MemoryPressure-condition alert. -/
def memoryPressureMsg (specName : String) : String :=
  "Node" ++ specName ++ "has changed MemoryPressure status since last poll and may have observed memory pressure!"

/-- Message of the DiskPressure-condition alert (the source says "tatus"). -/
def diskPressureMsg (specName : String) : String :=
  "Node" ++ specName ++ "has changed DiskPressure tatus since last poll and may have observed disk pressure!"

/-- Message of the under-minimum-node-count alert. -/
def minNodesMsg (filter : String) : String :=
  "Node count with filter" ++ filter ++ "in under minimum specification!"

/-- The `PollErr.Message` produced when a `Get` of a node fails. -/
def getNodeErrMsg (name cause : String) : String :=
  "Unable to get node " ++ name ++ ": " ++ cause

/-- The `PollErr.Message` produced when the node `List` fails. -/
def listErrMsg (cause : String) : String :=
  "Unable to get nodes: " ++ cause

/-- The per-condition loop of `checkNode` (`node.go` lines 104–135): scan the
conditions in order; on the first recognized condition type whose transition is
fresher than `tickertime` and whose opt-in flag is set, dispatch the
kind-specific alert and return. -/
def checkConditions (alertSpec : NodeAlertSpec) (nowSeconds tickertime : Int) :
    List NodeCondition → List Event
  | [] => []
  | condition :: rest =>
    let transitiontimeDiff := nowSeconds - condition.lastTransitionTime
    if condition.type = "Ready" then
      if transitiontimeDiff < tickertime ∧ alertSpec.reportStatus.nodeReady = true then
        [Event.dispatch alertSpec.alerterType alertSpec.alerterName (readyMsg alertSpec.name)]
      else
        checkConditions alertSpec nowSeconds tickertime rest
    else if condition.type = "OutOfDisk" then
      if transitiontimeDiff < tickertime ∧ alertSpec.reportStatus.nodeOutOfDisk = true then
        [Event.dispatch alertSpec.alerterType alertSpec.alerterName (outOfDiskMsg alertSpec.name)]
      else
        checkConditions alertSpec nowSeconds tickertime rest
    else if condition.type = "MemoryPressure" then
      if transitiontimeDiff < tickertime ∧ alertSpec.reportStatus.nodeMemoryPressure = true then
        [Event.dispatch alertSpec.alerterType alertSpec.alerterName (memoryPressureMsg alertSpec.name)]
      else
        checkConditions alertSpec nowSeconds tickertime rest
    else if condition.type = "DiskPressure" then
      if transitiontimeDiff < tickertime ∧ alertSpec.reportStatus.nodeDiskPressure = true then
        [Event.dispatch alertSpec.alerterType alertSpec.alerterName (diskPressureMsg alertSpec.name)]
      else
        checkConditions alertSpec nowSeconds tickertime rest
    else
      checkConditions alertSpec nowSeconds tickertime rest

/-- `checkNode` (`node.go` lines 91–137): if the node has been around strictly
longer than `pendingThreshold` seconds, scan its conditions; otherwise bail.
Returns the dispatch events it makes. -/
def checkNode (nowSeconds : Int) (node : Node) (alertSpec : NodeAlertSpec)
    (tickertime : Int) : List Event :=
  let statusCreatedSecondsDiff := nowSeconds - node.creationTimestamp
  if statusCreatedSecondsDiff > alertSpec.reportStatus.pendingThreshold then
    checkConditions alertSpec nowSeconds tickertime node.conditions
  else
    []

/-- The defaulting at the top of `PollNode` (`node.go` lines 37–39): a zero
`PendingThreshold` is replaced by 10. -/
def normalizeSpec (alertSpec : NodeAlertSpec) : NodeAlertSpec :=
  if alertSpec.reportStatus.pendingThreshold = 0 then
    { alertSpec with reportStatus := { alertSpec.reportStatus with pendingThreshold := 10 } }
  else
    alertSpec

/-- The per-item loop of the wildcard branch of `PollNode` (`node.go` lines
78–86): re-`Get` each listed node by name; a failed `Get` aborts with a
`PollErr`, a successful one is handed to `checkNode`. -/
def pollLoop (clientset : Cluster) (nowSeconds : Int) (alertSpec : NodeAlertSpec)
    (tickertime : Int) : List Node → List Event × Option String
  | [] => ([], none)
  | nodedata :: rest =>
    match clientset.getNode nodedata.name with
    | .error e => ([Event.fetchByName nodedata.name], some (getNodeErrMsg nodedata.name e))
    | .ok node =>
      let r := pollLoop clientset nowSeconds alertSpec tickertime rest
      (Event.fetchByName nodedata.name ::
        (checkNode nowSeconds node alertSpec tickertime ++ r.1), r.2)

/-- `PollNode` (`node.go` lines 29–89): normalize the threshold, then either
`Get` the single named node and check it, or `List` by the label filter, fire
the under-minimum alert if the count is below `minNodes`, and re-`Get` and
check each listed node. Returns the event trace and the optional error. -/
def PollNode (clientset : Cluster) (nowSeconds : Int) (alertSpec0 : NodeAlertSpec)
    (tickertime : Int) : List Event × Option String :=
  let alertSpec := normalizeSpec alertSpec0
  if alertSpec.name ≠ "*" then
    match clientset.getNode alertSpec.name with
    | .error e =>
      ([Event.fetchByName alertSpec.name], some (getNodeErrMsg alertSpec.name e))
    | .ok node =>
      (Event.fetchByName alertSpec.name ::
        checkNode nowSeconds node alertSpec tickertime, none)
  else
    match clientset.listNodes alertSpec.nodeFilter with
    | .error e => ([Event.listNodes alertSpec.nodeFilter], some (listErrMsg e))
    | .ok items =>
      let minAlert : List Event :=
        if toInt32 items.length < alertSpec.reportStatus.minNodes then
          [Event.dispatch alertSpec.alerterType alertSpec.alerterName
            (minNodesMsg alertSpec.nodeFilter)]
        else []
      let r := pollLoop clientset nowSeconds alertSpec tickertime items
      (Event.listNodes alertSpec.nodeFilter :: (minAlert ++ r.1), r.2)

/-! ### Derived descriptions of the condition scan -/

/-- Whether a single condition triggers an alert in the scan of
`checkConditions`: recognized type, transition fresher than `tickertime`, and
the matching opt-in flag set. -/
def condFires (alertSpec : NodeAlertSpec) (nowSeconds tickertime : Int)
    (condition : NodeCondition) : Bool :=
  let transitiontimeDiff := nowSeconds - condition.lastTransitionTime
  if condition.type = "Ready" then
    decide (transitiontimeDiff < tickertime) && alertSpec.reportStatus.nodeReady
  else if condition.type = "OutOfDisk" then
    decide (transitiontimeDiff < tickertime) && alertSpec.reportStatus.nodeOutOfDisk
  else if condition.type = "MemoryPressure" then
    decide (transitiontimeDiff < tickertime) && alertSpec.reportStatus.nodeMemoryPressure
  else if condition.type = "DiskPressure" then
    decide (transitiontimeDiff < tickertime) && alertSpec.reportStatus.nodeDiskPressure
  else
    false

/-- The alert message a condition of the given type produces. -/
def condMsg (specName ty : String) : String :=
  if ty = "Ready" then readyMsg specName
  else if ty = "OutOfDisk" then outOfDiskMsg specName
  else if ty = "MemoryPressure" then memoryPressureMsg specName
  else if ty = "DiskPressure" then diskPressureMsg specName
  else ""

/-- The four per-node alert messages a spec can produce. -/
def nodeMsgs (specName : String) : List String :=
  [readyMsg specName, outOfDiskMsg specName, memoryPressureMsg specName,
    diskPressureMsg specName]

theorem checkConditions_cons (alertSpec : NodeAlertSpec) (nowSeconds tickertime : Int)
    (c : NodeCondition) (rest : List NodeCondition) :
    checkConditions alertSpec nowSeconds tickertime (c :: rest) =
      if condFires alertSpec nowSeconds tickertime c then
        [Event.dispatch alertSpec.alerterType alertSpec.alerterName
          (condMsg alertSpec.name c.type)]
      else
        checkConditions alertSpec nowSeconds tickertime rest := by
  by_cases h1 : c.type = "Ready"
  · simp [checkConditions, condFires, condMsg, h1, Bool.and_eq_true, decide_eq_true_eq]
  · by_cases h2 : c.type = "OutOfDisk"
    · simp [checkConditions, condFires, condMsg, h1, h2, Bool.and_eq_true, decide_eq_true_eq]
    · by_cases h3 : c.type = "MemoryPressure"
      · simp [checkConditions, condFires, condMsg, h1, h2, h3, Bool.and_eq_true,
          decide_eq_true_eq]
      · by_cases h4 : c.type = "DiskPressure"
        · simp [checkConditions, condFires, condMsg, h1, h2, h3, h4, Bool.and_eq_true,
            decide_eq_true_eq]
        · simp [checkConditions, condFires, condMsg, h1, h2, h3, h4]

/-- The condition scan is exactly: find the first firing condition and dispatch
its kind-specific message. -/
theorem checkConditions_eq_find (alertSpec : NodeAlertSpec) (nowSeconds tickertime : Int)
    (l : List NodeCondition) :
    checkConditions alertSpec nowSeconds tickertime l =
      ((l.find? (condFires alertSpec nowSeconds tickertime)).map fun c =>
        Event.dispatch alertSpec.alerterType alertSpec.alerterName
          (condMsg alertSpec.name c.type)).toList := by
  induction l with
  | nil => rfl
  | cons c rest ih =>
    rw [checkConditions_cons]
    by_cases h : condFires alertSpec nowSeconds tickertime c
    · simp [List.find?_cons, h]
    · simp only [h, if_false, List.find?_cons, ih]
      simp [h]

/-- A firing condition has one of the four recognized types, so its message is
one of the four per-node messages. -/
theorem condMsg_mem_of_fires (alertSpec : NodeAlertSpec) (nowSeconds tickertime : Int)
    (c : NodeCondition) (h : condFires alertSpec nowSeconds tickertime c = true) :
    condMsg alertSpec.name c.type ∈ nodeMsgs alertSpec.name := by
  by_cases h1 : c.type = "Ready"
  · simp [condMsg, nodeMsgs, h1]
  · by_cases h2 : c.type = "OutOfDisk"
    · simp [condMsg, nodeMsgs, h1, h2]
    · by_cases h3 : c.type = "MemoryPressure"
      · simp [condMsg, nodeMsgs, h1, h2, h3]
      · by_cases h4 : c.type = "DiskPressure"
        · simp [condMsg, nodeMsgs, h1, h2, h3, h4]
        · simp [condFires, h1, h2, h3, h4] at h

/-- Every event produced by the condition scan is a dispatch with one of the
four per-node messages, addressed by the spec's alerter fields. -/
theorem checkConditions_events (alertSpec : NodeAlertSpec) (nowSeconds tickertime : Int)
    (l : List NodeCondition) :
    ∀ ev ∈ checkConditions alertSpec nowSeconds tickertime l,
      ∃ m ∈ nodeMsgs alertSpec.name,
        ev = Event.dispatch alertSpec.alerterType alertSpec.alerterName m := by
  intro ev hev
  rw [checkConditions_eq_find] at hev
  rcases hfind : (l.find? (condFires alertSpec nowSeconds tickertime)) with _ | c
  · rw [hfind] at hev; simp at hev
  · rw [hfind] at hev
    simp at hev
    subst hev
    exact ⟨condMsg alertSpec.name c.type,
      condMsg_mem_of_fires alertSpec nowSeconds tickertime c (List.find?_some hfind), rfl⟩

/-- Every event produced by `checkNode` is a dispatch with one of the four
per-node messages. -/
theorem checkNode_events (nowSeconds : Int) (node : Node) (alertSpec : NodeAlertSpec)
    (tickertime : Int) :
    ∀ ev ∈ checkNode nowSeconds node alertSpec tickertime,
      ∃ m ∈ nodeMsgs alertSpec.name,
        ev = Event.dispatch alertSpec.alerterType alertSpec.alerterName m := by
  intro ev hev
  have hck : checkNode nowSeconds node alertSpec tickertime =
      if nowSeconds - node.creationTimestamp > alertSpec.reportStatus.pendingThreshold then
        checkConditions alertSpec nowSeconds tickertime node.conditions
      else [] := rfl
  rw [hck] at hev
  split at hev
  · exact checkConditions_events alertSpec nowSeconds tickertime node.conditions ev hev
  · simp at hev

theorem normalizeSpec_name (s : NodeAlertSpec) : (normalizeSpec s).name = s.name := by
  unfold normalizeSpec; split <;> rfl

theorem normalizeSpec_nodeFilter (s : NodeAlertSpec) :
    (normalizeSpec s).nodeFilter = s.nodeFilter := by
  unfold normalizeSpec; split <;> rfl

theorem normalizeSpec_alerterType (s : NodeAlertSpec) :
    (normalizeSpec s).alerterType = s.alerterType := by
  unfold normalizeSpec; split <;> rfl

theorem normalizeSpec_alerterName (s : NodeAlertSpec) :
    (normalizeSpec s).alerterName = s.alerterName := by
  unfold normalizeSpec; split <;> rfl

theorem normalizeSpec_minNodes (s : NodeAlertSpec) :
    (normalizeSpec s).reportStatus.minNodes = s.reportStatus.minNodes := by
  unfold normalizeSpec; split <;> rfl

/-- The trace one list item contributes in the wildcard loop: the re-fetch by
name, followed by the node check when that fetch succeeds. -/
def evalNodeTrace (clientset : Cluster) (nowSeconds : Int) (alertSpec : NodeAlertSpec)
    (tickertime : Int) (nodedata : Node) : List Event :=
  match clientset.getNode nodedata.name with
  | .error _ => [Event.fetchByName nodedata.name]
  | .ok node => Event.fetchByName nodedata.name :: checkNode nowSeconds node alertSpec tickertime

/-- When every listed node re-fetches successfully, the loop visits them all in
order and reports no error. -/
theorem pollLoop_all_ok (clientset : Cluster) (nowSeconds : Int)
    (alertSpec : NodeAlertSpec) (tickertime : Int) (l : List Node)
    (h : ∀ nd ∈ l, (clientset.getNode nd.name).isOk = true) :
    pollLoop clientset nowSeconds alertSpec tickertime l =
      (l.flatMap (evalNodeTrace clientset nowSeconds alertSpec tickertime), none) := by
  induction l with
  | nil => rfl
  | cons nd rest ih =>
    have hnd : (clientset.getNode nd.name).isOk = true := h nd (List.mem_cons_self nd rest)
    rcases hget : clientset.getNode nd.name with e | node
    · rw [hget] at hnd; simp [Except.isOk, Except.toBool] at hnd
    · have ihr := ih fun x hx => h x (List.mem_cons_of_mem nd hx)
      simp [pollLoop, hget, ihr, evalNodeTrace, List.flatMap_cons]

/-- When the nodes before `bad` all re-fetch successfully and `bad` fails, the
loop stops at `bad`: its trace covers exactly the earlier nodes plus the failed
fetch, and the fetch error is reported. -/
theorem pollLoop_first_err (clientset : Cluster) (nowSeconds : Int)
    (alertSpec : NodeAlertSpec) (tickertime : Int) (pre post : List Node)
    (bad : Node) (e : String)
    (hpre : ∀ nd ∈ pre, (clientset.getNode nd.name).isOk = true)
    (hbad : clientset.getNode bad.name = .error e) :
    pollLoop clientset nowSeconds alertSpec tickertime (pre ++ bad :: post) =
      (pre.flatMap (evalNodeTrace clientset nowSeconds alertSpec tickertime) ++
        [Event.fetchByName bad.name], some (getNodeErrMsg bad.name e)) := by
  induction pre with
  | nil => simp [pollLoop, hbad]
  | cons nd rest ih =>
    have hnd : (clientset.getNode nd.name).isOk = true := hpre nd (List.mem_cons_self nd rest)
    rcases hget : clientset.getNode nd.name with e' | node
    · rw [hget] at hnd; simp [Except.isOk, Except.toBool] at hnd
    · have ihr := ih fun x hx => hpre x (List.mem_cons_of_mem nd hx)
      simp [pollLoop, hget, ihr, evalNodeTrace, List.flatMap_cons]

/-- The loop reports no error exactly when every listed node re-fetches
successfully. -/
theorem pollLoop_none_iff (clientset : Cluster) (nowSeconds : Int)
    (alertSpec : NodeAlertSpec) (tickertime : Int) (l : List Node) :
    (pollLoop clientset nowSeconds alertSpec tickertime l).2 = none ↔
      ∀ nd ∈ l, (clientset.getNode nd.name).isOk = true := by
  induction l with
  | nil => simp [pollLoop]
  | cons nd rest ih =>
    rcases hget : clientset.getNode nd.name with e | node
    · simp [pollLoop, hget, Except.isOk, Except.toBool]
    · simp only [pollLoop, hget]
      constructor
      · intro h x hx
        rcases List.mem_cons.mp hx with hx | hx
        · subst hx; rw [hget]; rfl
        · exact (ih.mp h) x hx
      · intro h
        exact ih.mpr fun x hx => h x (List.mem_cons_of_mem nd hx)

/-- Every event the loop produces is a fetch-by-name or one of the four
per-node dispatches. -/
theorem pollLoop_events (clientset : Cluster) (nowSeconds : Int)
    (alertSpec : NodeAlertSpec) (tickertime : Int) (l : List Node) :
    ∀ ev ∈ (pollLoop clientset nowSeconds alertSpec tickertime l).1,
      ev.isFetchByName = true ∨
        ∃ m ∈ nodeMsgs alertSpec.name,
          ev = Event.dispatch alertSpec.alerterType alertSpec.alerterName m := by
  induction l with
  | nil => intro ev hev; simp [pollLoop] at hev
  | cons nd rest ih =>
    intro ev hev
    rcases hget : clientset.getNode nd.name with e | node <;> rw [pollLoop, hget] at hev
    · simp only [List.mem_singleton] at hev
      subst hev; left; rfl
    · simp only [List.mem_cons, List.mem_append] at hev
      rcases hev with hev | hev | hev
      · subst hev; left; rfl
      · exact Or.inr (checkNode_events nowSeconds node alertSpec tickertime ev hev)
      · exact ih ev hev

/-- Unfolding equation for `checkNode`. -/
theorem checkNode_def (nowSeconds : Int) (node : Node) (alertSpec : NodeAlertSpec)
    (tickertime : Int) :
    checkNode nowSeconds node alertSpec tickertime =
      if nowSeconds - node.creationTimestamp > alertSpec.reportStatus.pendingThreshold then
        checkConditions alertSpec nowSeconds tickertime node.conditions
      else [] := rfl

/-- The opt-in flag of `reportStatus` that guards a condition type. -/
def flagFor (alertSpec : NodeAlertSpec) (ty : String) : Bool :=
  if ty = "Ready" then alertSpec.reportStatus.nodeReady
  else if ty = "OutOfDisk" then alertSpec.reportStatus.nodeOutOfDisk
  else if ty = "MemoryPressure" then alertSpec.reportStatus.nodeMemoryPressure
  else if ty = "DiskPressure" then alertSpec.reportStatus.nodeDiskPressure
  else false

/-- The under-minimum message never coincides with a per-node message of a
wildcard spec: its fifth character is a blank, theirs is the `*`. -/
theorem minNodesMsg_ne_star_msg (s t : String) : minNodesMsg s ≠ "Node*" ++ t := by
  intro h
  have hl : (minNodesMsg s).data[4]? = some ' ' := by
    show ("Node count with filter" ++ s ++ "in under minimum specification!").data[4]? = some ' '
    rw [String.data_append, String.data_append, List.append_assoc, List.getElem?_append,
      if_pos (by decide)]
    decide
  have hr : ("Node*" ++ t).data[4]? = some '*' := by
    rw [String.data_append, List.getElem?_append, if_pos (by decide)]
    decide
  rw [h, hr] at hl
  exact absurd hl (by decide)

/-- Each wildcard-spec per-node message starts with `Node*`. -/
theorem nodeMsgs_star_shape (m : String) (hm : m ∈ nodeMsgs "*") :
    ∃ t, m = "Node*" ++ t := by
  simp only [nodeMsgs, List.mem_cons, List.mem_singleton, List.not_mem_nil, or_false] at hm
  rcases hm with hm | hm | hm | hm <;> subst hm
  · exact ⟨"has changed ready status since last poll and may be restarting!", rfl⟩
  · exact ⟨"has changed OutOfDisk status since last poll and may have observed disk space issues!", rfl⟩
  · exact ⟨"has changed MemoryPressure status since last poll and may have observed memory pressure!", rfl⟩
  · exact ⟨"has changed DiskPressure tatus since last poll and may have observed disk pressure!", rfl⟩

/-- Scanning a list whose first firing condition is `c` dispatches exactly the
message of `c`. -/
theorem checkConditions_first_fire (alertSpec : NodeAlertSpec) (nowSeconds tickertime : Int)
    (pre post : List NodeCondition) (c : NodeCondition)
    (hpre : ∀ c' ∈ pre, condFires alertSpec nowSeconds tickertime c' = false)
    (hc : condFires alertSpec nowSeconds tickertime c = true) :
    checkConditions alertSpec nowSeconds tickertime (pre ++ c :: post) =
      [Event.dispatch alertSpec.alerterType alertSpec.alerterName
        (condMsg alertSpec.name c.type)] := by
  induction pre with
  | nil => rw [List.nil_append, checkConditions_cons, if_pos hc]
  | cons p ps ih =>
    rw [List.cons_append, checkConditions_cons,
      if_neg (by rw [hpre p (List.mem_cons_self p ps)]; exact Bool.false_ne_true)]
    exact ih fun x hx => hpre x (List.mem_cons_of_mem p hx)

/-! ### Fixtures for the witnesses and counterexamples -/

/-- Witness fixture: a report status with every opt-in flag set, threshold 10,
minimum two nodes. -/
def wReport : NodeReportStatus :=
  { nodeReady := true, nodeOutOfDisk := true, nodeMemoryPressure := true,
    nodeDiskPressure := true, pendingThreshold := 10, minNodes := 2 }

/-- Witness fixture: a wildcard alert spec. -/
def wSpec : NodeAlertSpec :=
  { name := "*", nodeFilter := "role=worker", reportStatus := wReport,
    alerterType := "smtp", alerterName := "ops" }

/-- Witness fixture: an old node whose Ready condition changed 5 seconds before
poll time 100, with a further condition after it. -/
def wNode1 : Node :=
  { name := "n1", creationTimestamp := 0,
    conditions := [{ type := "Ready", lastTransitionTime := 95 },
                   { type := "OutOfDisk", lastTransitionTime := 95 }] }

/-- Witness fixture: an old node whose OutOfDisk condition changed 2 seconds
before poll time 100. -/
def wNode2 : Node :=
  { name := "n2", creationTimestamp := 0,
    conditions := [{ type := "OutOfDisk", lastTransitionTime := 98 }] }

/-- Witness fixture: a cluster holding exactly `wNode1` and `wNode2`. -/
def wCluster : Cluster :=
  { getNode := fun n =>
      if n = "n1" then .ok wNode1 else if n = "n2" then .ok wNode2 else .error "not found",
    listNodes := fun _ => .ok [wNode1, wNode2] }

/-! ### The claims -/

/-- C2: a node whose age is at most `pendingThreshold` seconds produces no
dispatch at all, whatever its conditions. -/
theorem checkNode_young_node_no_dispatch (nowSeconds : Int) (node : Node)
    (alertSpec : NodeAlertSpec) (tickertime : Int)
    (h : nowSeconds - node.creationTimestamp ≤ alertSpec.reportStatus.pendingThreshold) :
    checkNode nowSeconds node alertSpec tickertime = [] := by
  rw [checkNode_def, if_neg (by omega)]

/-- C2 witness: a node created 5 seconds before poll time 100 with a fresh
Ready condition and the flag on still produces nothing. -/
theorem checkNode_young_node_no_dispatch_witness :
    checkNode 100 { wNode1 with creationTimestamp := 95 } wSpec 10 = [] :=
  checkNode_young_node_no_dispatch 100 { wNode1 with creationTimestamp := 95 } wSpec 10
    (by decide)

/-- C6: per node and poll, at most one dispatch is emitted, and the scan is
exactly "dispatch for the first firing condition in list order, if any". -/
theorem checkNode_at_most_one_dispatch (nowSeconds : Int) (node : Node)
    (alertSpec : NodeAlertSpec) (tickertime : Int) :
    (checkNode nowSeconds node alertSpec tickertime).length ≤ 1 ∧
    checkNode nowSeconds node alertSpec tickertime =
      (if nowSeconds - node.creationTimestamp > alertSpec.reportStatus.pendingThreshold then
        ((node.conditions.find? (condFires alertSpec nowSeconds tickertime)).map fun c =>
          Event.dispatch alertSpec.alerterType alertSpec.alerterName
            (condMsg alertSpec.name c.type)).toList
      else []) := by
  have h2 : checkNode nowSeconds node alertSpec tickertime =
      (if nowSeconds - node.creationTimestamp > alertSpec.reportStatus.pendingThreshold then
        ((node.conditions.find? (condFires alertSpec nowSeconds tickertime)).map fun c =>
          Event.dispatch alertSpec.alerterType alertSpec.alerterName
            (condMsg alertSpec.name c.type)).toList
      else []) := by
    rw [checkNode_def]
    split
    · exact checkConditions_eq_find alertSpec nowSeconds tickertime node.conditions
    · rfl
  refine ⟨?_, h2⟩
  rw [h2]
  split
  · rcases node.conditions.find? (condFires alertSpec nowSeconds tickertime) with _ | c <;> simp
  · simp

/-- A condition that does not fire can be deleted from the scan without
changing the outcome. -/
theorem checkConditions_erase_nofire (alertSpec : NodeAlertSpec) (nowSeconds tickertime : Int)
    (c : NodeCondition) (rest : List NodeCondition)
    (h : condFires alertSpec nowSeconds tickertime c = false) (pre : List NodeCondition) :
    checkConditions alertSpec nowSeconds tickertime (pre ++ c :: rest) =
      checkConditions alertSpec nowSeconds tickertime (pre ++ rest) := by
  induction pre with
  | nil =>
    rw [List.nil_append, List.nil_append, checkConditions_cons,
      if_neg (by rw [h]; exact Bool.false_ne_true)]
  | cons p ps ih =>
    rw [List.cons_append, List.cons_append, checkConditions_cons, checkConditions_cons, ih]

/-- C7: past the age gate, a recognized fresh condition whose opt-in flag is
off makes no dispatch, wherever it sits in the list, and the scan continues
with the remaining conditions as if it were absent. -/
theorem checkNode_flag_disabled_continues (nowSeconds tickertime : Int) (node : Node)
    (alertSpec : NodeAlertSpec) (c : NodeCondition) (pre rest : List NodeCondition)
    (hconds : node.conditions = pre ++ c :: rest)
    (hgate : nowSeconds - node.creationTimestamp > alertSpec.reportStatus.pendingThreshold)
    (hrec : c.type = "Ready" ∨ c.type = "OutOfDisk" ∨ c.type = "MemoryPressure" ∨
      c.type = "DiskPressure")
    (_hfresh : nowSeconds - c.lastTransitionTime < tickertime)
    (hflag : flagFor alertSpec c.type = false) :
    checkNode nowSeconds node alertSpec tickertime =
      checkNode nowSeconds { node with conditions := pre ++ rest } alertSpec tickertime := by
  have hnofire : condFires alertSpec nowSeconds tickertime c = false := by
    rcases hrec with h | h | h | h <;>
      · rw [flagFor, h] at hflag
        rw [condFires, h]
        simp at hflag ⊢
        simp [hflag]
  have hcreation : ({ node with conditions := pre ++ rest } : Node).creationTimestamp =
      node.creationTimestamp := rfl
  have hconds2 : ({ node with conditions := pre ++ rest } : Node).conditions =
      pre ++ rest := rfl
  rw [checkNode_def, checkNode_def, hcreation, hconds, hconds2, if_pos hgate, if_pos hgate]
  exact checkConditions_erase_nofire alertSpec nowSeconds tickertime c rest hnofire pre

/-- C7 witness: a fresh OutOfDisk condition with `nodeOutOfDisk = false` is
skipped, and the node checks as if only the Ready condition after it were
present. -/
theorem checkNode_flag_disabled_continues_witness :
    checkNode 100
        { name := "n3", creationTimestamp := 0,
          conditions := [{ type := "OutOfDisk", lastTransitionTime := 98 },
                         { type := "Ready", lastTransitionTime := 95 }] }
        { wSpec with reportStatus := { wReport with nodeOutOfDisk := false } } 10 =
      checkNode 100
        { name := "n3", creationTimestamp := 0,
          conditions := [{ type := "Ready", lastTransitionTime := 95 }] }
        { wSpec with reportStatus := { wReport with nodeOutOfDisk := false } } 10 :=
  checkNode_flag_disabled_continues 100 10 _ _
    { type := "OutOfDisk", lastTransitionTime := 98 } []
    [{ type := "Ready", lastTransitionTime := 95 }]
    rfl (by decide) (Or.inr (Or.inl rfl)) (by decide) (by decide)

/-- C1 (amended): for a node strictly older than `pendingThreshold`, whose
conditions list contains a Ready condition that transitioned 5 seconds before
poll time, preceded only by conditions that do not fire, with `tickertime = 10`
and `nodeReady = true`, exactly the ready-status dispatch is emitted and the
conditions after the Ready one are never reached. -/
theorem checkNode_ready_first_alert (nowSeconds : Int) (node : Node)
    (alertSpec : NodeAlertSpec) (pre post : List NodeCondition) (c : NodeCondition)
    (hage : nowSeconds - node.creationTimestamp > alertSpec.reportStatus.pendingThreshold)
    (hconds : node.conditions = pre ++ c :: post)
    (hpre : ∀ c' ∈ pre, condFires alertSpec nowSeconds 10 c' = false)
    (htype : c.type = "Ready")
    (htime : nowSeconds - c.lastTransitionTime = 5)
    (hflag : alertSpec.reportStatus.nodeReady = true) :
    checkNode nowSeconds node alertSpec 10 =
      [Event.dispatch alertSpec.alerterType alertSpec.alerterName
        (readyMsg alertSpec.name)] := by
  have hfire : condFires alertSpec nowSeconds 10 c = true := by
    rw [condFires, htype]
    simp [htime, hflag]
  rw [checkNode_def, if_pos hage, hconds,
    checkConditions_first_fire alertSpec nowSeconds 10 pre post c hpre hfire]
  rw [condMsg, htype, if_pos rfl]

/-- C1 witness: `wNode1` (age 100 > 10, Ready changed at 95) under the
wildcard spec dispatches exactly the ready-status alert, although a fresh
OutOfDisk condition follows in the list. -/
theorem checkNode_ready_first_alert_witness :
    checkNode 100 wNode1 wSpec 10 =
      [Event.dispatch wSpec.alerterType wSpec.alerterName (readyMsg wSpec.name)] :=
  checkNode_ready_first_alert 100 wNode1 wSpec []
    [{ type := "OutOfDisk", lastTransitionTime := 95 }]
    { type := "Ready", lastTransitionTime := 95 }
    (by decide) rfl (by intro c' hc'; simp at hc') rfl (by decide) rfl

/-- C1 counterexample: at age exactly `pendingThreshold` (100 − 90 = 10), with
the very Ready condition, flag and tick interval of the claim, the code
dispatches nothing: the age gate requires age strictly greater than the
threshold, so "at or above" is wrong at the boundary. -/
theorem checkNode_ready_at_threshold_counterexample :
    (100 : Int) - 90 = wSpec.reportStatus.pendingThreshold ∧
    wSpec.reportStatus.nodeReady = true ∧
    checkNode 100 { wNode1 with creationTimestamp := 90 } wSpec 10 = [] := by
  refine ⟨by decide, rfl, ?_⟩
  rw [checkNode_def, if_neg (by decide)]

/-- C9: the poll is a pure function of its inputs: two clusters that answer
every fetch identically produce, for the same spec, time and tick interval,
the identical event trace and the identical returned error. -/
theorem pollNode_deterministic (c1 c2 : Cluster) (nowSeconds : Int)
    (alertSpec : NodeAlertSpec) (tickertime : Int)
    (hget : ∀ n, c1.getNode n = c2.getNode n)
    (hlist : ∀ s, c1.listNodes s = c2.listNodes s) :
    PollNode c1 nowSeconds alertSpec tickertime =
      PollNode c2 nowSeconds alertSpec tickertime := by
  have hc : c1 = c2 := by
    cases c1
    cases c2
    simp only [Cluster.mk.injEq]
    exact ⟨funext hget, funext hlist⟩
  rw [hc]

/-- C9 witness: re-evaluating the fixture poll against the same cluster yields
the identical outcome. -/
theorem pollNode_deterministic_witness :
    PollNode wCluster 100 wSpec 10 = PollNode wCluster 100 wSpec 10 :=
  pollNode_deterministic wCluster wCluster 100 wSpec 10 (fun _ => rfl) (fun _ => rfl)

/-- Appending to a common left part is cancellative on strings. -/
theorem string_append_left_cancel {s t₁ t₂ : String} (h : s ++ t₁ = s ++ t₂) : t₁ = t₂ := by
  have hd := congrArg String.data h
  rw [String.data_append, String.data_append] at hd
  exact String.ext (List.append_cancel_left hd)

theorem readyMsg_ne_outOfDiskMsg (n : String) : readyMsg n ≠ outOfDiskMsg n := by
  intro h
  simp only [readyMsg, outOfDiskMsg] at h
  exact absurd (string_append_left_cancel h) (by decide)

theorem readyMsg_ne_memoryPressureMsg (n : String) : readyMsg n ≠ memoryPressureMsg n := by
  intro h
  simp only [readyMsg, memoryPressureMsg] at h
  exact absurd (string_append_left_cancel h) (by decide)

theorem readyMsg_ne_diskPressureMsg (n : String) : readyMsg n ≠ diskPressureMsg n := by
  intro h
  simp only [readyMsg, diskPressureMsg] at h
  exact absurd (string_append_left_cancel h) (by decide)

theorem outOfDiskMsg_ne_memoryPressureMsg (n : String) :
    outOfDiskMsg n ≠ memoryPressureMsg n := by
  intro h
  simp only [outOfDiskMsg, memoryPressureMsg] at h
  exact absurd (string_append_left_cancel h) (by decide)

theorem outOfDiskMsg_ne_diskPressureMsg (n : String) : outOfDiskMsg n ≠ diskPressureMsg n := by
  intro h
  simp only [outOfDiskMsg, diskPressureMsg] at h
  exact absurd (string_append_left_cancel h) (by decide)

theorem memoryPressureMsg_ne_diskPressureMsg (n : String) :
    memoryPressureMsg n ≠ diskPressureMsg n := by
  intro h
  simp only [memoryPressureMsg, diskPressureMsg] at h
  exact absurd (string_append_left_cancel h) (by decide)

/-- On the four recognized kinds, the kind message (for one spec name) is
injective: different kinds always make different messages. -/
theorem condMsg_inj (n ty ty' : String)
    (h1 : ty = "Ready" ∨ ty = "OutOfDisk" ∨ ty = "MemoryPressure" ∨ ty = "DiskPressure")
    (h2 : ty' = "Ready" ∨ ty' = "OutOfDisk" ∨ ty' = "MemoryPressure" ∨ ty' = "DiskPressure")
    (hEq : condMsg n ty = condMsg n ty') : ty = ty' := by
  rcases h1 with rfl | rfl | rfl | rfl <;> rcases h2 with rfl | rfl | rfl | rfl <;>
    simp [condMsg] at hEq ⊢ <;>
    first
      | exact absurd hEq (readyMsg_ne_outOfDiskMsg n)
      | exact absurd hEq (readyMsg_ne_memoryPressureMsg n)
      | exact absurd hEq (readyMsg_ne_diskPressureMsg n)
      | exact absurd hEq (outOfDiskMsg_ne_memoryPressureMsg n)
      | exact absurd hEq (outOfDiskMsg_ne_diskPressureMsg n)
      | exact absurd hEq (memoryPressureMsg_ne_diskPressureMsg n)
      | exact absurd hEq (Ne.symm (readyMsg_ne_outOfDiskMsg n))
      | exact absurd hEq (Ne.symm (readyMsg_ne_memoryPressureMsg n))
      | exact absurd hEq (Ne.symm (readyMsg_ne_diskPressureMsg n))
      | exact absurd hEq (Ne.symm (outOfDiskMsg_ne_memoryPressureMsg n))
      | exact absurd hEq (Ne.symm (outOfDiskMsg_ne_diskPressureMsg n))
      | exact absurd hEq (Ne.symm (memoryPressureMsg_ne_diskPressureMsg n))

/-- A firing condition has one of the four recognized types. -/
theorem condFires_recognized (alertSpec : NodeAlertSpec) (nowSeconds tickertime : Int)
    (c : NodeCondition) (h : condFires alertSpec nowSeconds tickertime c = true) :
    c.type = "Ready" ∨ c.type = "OutOfDisk" ∨ c.type = "MemoryPressure" ∨
      c.type = "DiskPressure" := by
  by_cases h1 : c.type = "Ready"
  · exact Or.inl h1
  by_cases h2 : c.type = "OutOfDisk"
  · exact Or.inr (Or.inl h2)
  by_cases h3 : c.type = "MemoryPressure"
  · exact Or.inr (Or.inr (Or.inl h3))
  by_cases h4 : c.type = "DiskPressure"
  · exact Or.inr (Or.inr (Or.inr h4))
  rw [condFires] at h
  simp [h1, h2, h3, h4] at h

/-- A dispatched event of `checkNode` is exactly the dispatch for the first
firing condition, carrying that condition's kind message. -/
theorem checkNode_mem_elim (nowSeconds : Int) (node : Node) (alertSpec : NodeAlertSpec)
    (tickertime : Int) (ev : Event)
    (hev : ev ∈ checkNode nowSeconds node alertSpec tickertime) :
    ∃ c, node.conditions.find? (condFires alertSpec nowSeconds tickertime) = some c ∧
      ev = Event.dispatch alertSpec.alerterType alertSpec.alerterName
        (condMsg alertSpec.name c.type) := by
  rw [checkNode_def] at hev
  split at hev
  · rw [checkConditions_eq_find] at hev
    rcases hfind : node.conditions.find? (condFires alertSpec nowSeconds tickertime) with _ | c
    · rw [hfind] at hev
      simp at hev
    · rw [hfind] at hev
      simp at hev
      exact ⟨c, rfl, hev⟩
  · simp at hev

/-- C10 (amended): every dispatch of `checkNode` is attributed to a firing
condition of the node and carries the spec's alerter fields and the kind
message of that condition built from the spec's `name` field — never from the
node's own name, which is immaterial to the result (so a wildcard spec embeds
`"*"` where a node name might be expected). Consequently, for two nodes
alerting under one spec, the alerts are identical exactly when the firing
condition kinds coincide: same kind means identical messages across distinct
nodes, different kinds mean different messages. -/
theorem checkNode_message_uses_spec_name
    (nowSeconds nowSeconds' tickertime tickertime' : Int) (node node' : Node)
    (alertSpec : NodeAlertSpec) (other : String) :
    (∀ ev ∈ checkNode nowSeconds node alertSpec tickertime,
      ∃ c ∈ node.conditions, condFires alertSpec nowSeconds tickertime c = true ∧
        ev = Event.dispatch alertSpec.alerterType alertSpec.alerterName
          (condMsg alertSpec.name c.type)) ∧
    checkNode nowSeconds { node with name := other } alertSpec tickertime =
      checkNode nowSeconds node alertSpec tickertime ∧
    (∀ ev ev' c c',
      ev ∈ checkNode nowSeconds node alertSpec tickertime →
      ev' ∈ checkNode nowSeconds' node' alertSpec tickertime' →
      node.conditions.find? (condFires alertSpec nowSeconds tickertime) = some c →
      node'.conditions.find? (condFires alertSpec nowSeconds' tickertime') = some c' →
      (ev = ev' ↔ c.type = c'.type)) := by
  refine ⟨?_, rfl, ?_⟩
  · intro ev hev
    rcases checkNode_mem_elim nowSeconds node alertSpec tickertime ev hev with ⟨c, hfind, rfl⟩
    exact ⟨c, List.mem_of_find?_eq_some hfind, List.find?_some hfind, rfl⟩
  · intro ev ev' c c' hev hev' hf hf'
    rcases checkNode_mem_elim nowSeconds node alertSpec tickertime ev hev with ⟨d, hd, rfl⟩
    rcases checkNode_mem_elim nowSeconds' node' alertSpec tickertime' ev' hev' with ⟨d', hd', rfl⟩
    rw [hf] at hd
    rw [hf'] at hd'
    injection hd with hd
    injection hd' with hd'
    subst hd
    subst hd'
    constructor
    · intro h
      simp only [Event.dispatch.injEq] at h
      exact condMsg_inj alertSpec.name c.type c'.type
        (condFires_recognized alertSpec nowSeconds tickertime c (List.find?_some hf))
        (condFires_recognized alertSpec nowSeconds' tickertime' c' (List.find?_some hf'))
        h.2.2
    · intro h
      rw [h]

/-- C10 witness: under the wildcard fixture spec, `wNode1`'s ready alert is
attributed to its firing Ready condition with the `"Node*..."` message,
renaming the node changes nothing, and `wNode1`'s alert equals `wNode2`'s
exactly when `"Ready"` equals `"OutOfDisk"` — i.e. never. -/
theorem checkNode_message_uses_spec_name_witness :
    (∃ c ∈ wNode1.conditions, condFires wSpec 100 10 c = true ∧
      Event.dispatch "smtp" "ops" (readyMsg "*") =
        Event.dispatch wSpec.alerterType wSpec.alerterName (condMsg wSpec.name c.type)) ∧
    checkNode 100 { wNode1 with name := "renamed" } wSpec 10 =
      checkNode 100 wNode1 wSpec 10 ∧
    (Event.dispatch "smtp" "ops" (readyMsg "*") =
        Event.dispatch "smtp" "ops" (outOfDiskMsg "*") ↔
      ("Ready" : String) = "OutOfDisk") :=
  ⟨(checkNode_message_uses_spec_name 100 100 10 10 wNode1 wNode2 wSpec "renamed").1
      (Event.dispatch "smtp" "ops" (readyMsg "*")) (by decide),
    (checkNode_message_uses_spec_name 100 100 10 10 wNode1 wNode2 wSpec "renamed").2.1,
    (checkNode_message_uses_spec_name 100 100 10 10 wNode1 wNode2 wSpec "renamed").2.2
      (Event.dispatch "smtp" "ops" (readyMsg "*"))
      (Event.dispatch "smtp" "ops" (outOfDiskMsg "*"))
      { type := "Ready", lastTransitionTime := 95 }
      { type := "OutOfDisk", lastTransitionTime := 98 }
      (by decide) (by decide) (by decide) (by decide)⟩

/-- C10 counterexample: under one wildcard spec, `wNode1` (Ready flapped) and
`wNode2` (OutOfDisk flapped) both alert in the same poll, with two different
messages — so distinct nodes do not always carry identical messages; only the
node name is erased from them, not the condition kind. -/
theorem checkNode_messages_differ_counterexample :
    (PollNode wCluster 100 wSpec 10).1.filterMap Event.message =
      [readyMsg "*", outOfDiskMsg "*"] ∧
    readyMsg "*" ≠ outOfDiskMsg "*" := by
  constructor
  · decide
  · decide

/-- Unfolding of `PollNode` for a non-wildcard spec. -/
theorem PollNode_named_def (clientset : Cluster) (nowSeconds : Int)
    (alertSpec : NodeAlertSpec) (tickertime : Int) (h : alertSpec.name ≠ "*") :
    PollNode clientset nowSeconds alertSpec tickertime =
      match clientset.getNode alertSpec.name with
      | .error e => ([Event.fetchByName alertSpec.name], some (getNodeErrMsg alertSpec.name e))
      | .ok node =>
        (Event.fetchByName alertSpec.name ::
          checkNode nowSeconds node (normalizeSpec alertSpec) tickertime, none) := by
  simp only [PollNode, normalizeSpec_name]
  rw [if_pos h]

/-- Unfolding of `PollNode` for a wildcard spec whose list call succeeds. -/
theorem PollNode_wildcard_def (clientset : Cluster) (nowSeconds : Int)
    (alertSpec : NodeAlertSpec) (tickertime : Int) (items : List Node)
    (hname : alertSpec.name = "*")
    (hlist : clientset.listNodes alertSpec.nodeFilter = .ok items) :
    PollNode clientset nowSeconds alertSpec tickertime =
      (Event.listNodes alertSpec.nodeFilter ::
        ((if toInt32 items.length < alertSpec.reportStatus.minNodes then
            [Event.dispatch alertSpec.alerterType alertSpec.alerterName
              (minNodesMsg alertSpec.nodeFilter)]
          else []) ++
          (pollLoop clientset nowSeconds (normalizeSpec alertSpec) tickertime items).1),
        (pollLoop clientset nowSeconds (normalizeSpec alertSpec) tickertime items).2) := by
  simp only [PollNode, normalizeSpec_name, normalizeSpec_nodeFilter, normalizeSpec_minNodes,
    normalizeSpec_alerterType, normalizeSpec_alerterName, hname, hlist]
  simp

/-- C4: for a non-wildcard spec there is exactly one fetch, by the spec's
name; if it fails, `PollNode` reports exactly the error naming the node and
the cause, and makes no dispatch at all. -/
theorem pollNode_named_fetch (clientset : Cluster) (nowSeconds : Int)
    (alertSpec : NodeAlertSpec) (tickertime : Int) (h : alertSpec.name ≠ "*") :
    (PollNode clientset nowSeconds alertSpec tickertime).1.countP
        (fun ev => ev == Event.fetchByName alertSpec.name) = 1 ∧
    (PollNode clientset nowSeconds alertSpec tickertime).1.countP Event.isFetchByName = 1 ∧
    ∀ e, clientset.getNode alertSpec.name = .error e →
      PollNode clientset nowSeconds alertSpec tickertime =
        ([Event.fetchByName alertSpec.name], some (getNodeErrMsg alertSpec.name e)) ∧
      (PollNode clientset nowSeconds alertSpec tickertime).1.countP Event.isDispatch = 0 := by
  have hzero : ∀ (node : Node) (p : Event → Bool), (∀ a b m, p (Event.dispatch a b m) = false) →
      (checkNode nowSeconds node (normalizeSpec alertSpec) tickertime).countP p = 0 := by
    intro node p hp
    refine List.countP_eq_zero.mpr fun ev hev => ?_
    rcases checkNode_events nowSeconds node (normalizeSpec alertSpec) tickertime ev hev with
      ⟨m, _, rfl⟩
    simp [hp]
  rcases hget : clientset.getNode alertSpec.name with e | node
  · have hpoll : PollNode clientset nowSeconds alertSpec tickertime =
        ([Event.fetchByName alertSpec.name], some (getNodeErrMsg alertSpec.name e)) := by
      rw [PollNode_named_def clientset nowSeconds alertSpec tickertime h, hget]
    refine ⟨by rw [hpoll]; simp, by rw [hpoll]; simp [Event.isFetchByName], ?_⟩
    intro e' he'
    injection he' with he'
    subst he'
    exact ⟨hpoll, by rw [hpoll]; simp [Event.isDispatch]⟩
  · have hpoll : PollNode clientset nowSeconds alertSpec tickertime =
        (Event.fetchByName alertSpec.name ::
          checkNode nowSeconds node (normalizeSpec alertSpec) tickertime, none) := by
      rw [PollNode_named_def clientset nowSeconds alertSpec tickertime h, hget]
    refine ⟨?_, ?_, ?_⟩
    · rw [hpoll]
      simp only [List.countP_cons]
      rw [hzero node _ fun a b m => by simp]
      simp
    · rw [hpoll]
      simp only [List.countP_cons]
      rw [hzero node Event.isFetchByName fun a b m => rfl]
      simp [Event.isFetchByName]
    · intro e' he'
      cases he'

/-- C4 witness: polling the fixture cluster for the absent node `zzz` makes the
one fetch and returns the error carrying the node name and the cause. -/
theorem pollNode_named_fetch_witness :
    (PollNode wCluster 100 { wSpec with name := "zzz" } 10).1.countP
        (fun ev => ev == Event.fetchByName "zzz") = 1 ∧
    PollNode wCluster 100 { wSpec with name := "zzz" } 10 =
      ([Event.fetchByName "zzz"], some (getNodeErrMsg "zzz" "not found")) :=
  ⟨(pollNode_named_fetch wCluster 100 { wSpec with name := "zzz" } 10 (by decide)).1,
    ((pollNode_named_fetch wCluster 100 { wSpec with name := "zzz" } 10 (by decide)).2.2
      "not found" rfl).1⟩

/-- C3: a wildcard spec whose resolved node count is below `minNodes` fires the
under-minimum dispatch, identifying the filter, right after the list call and
before any per-node evaluation; no later event repeats that message. -/
theorem pollNode_under_min_dispatch (clientset : Cluster) (nowSeconds : Int)
    (alertSpec : NodeAlertSpec) (tickertime : Int) (items : List Node)
    (hname : alertSpec.name = "*")
    (hlist : clientset.listNodes alertSpec.nodeFilter = .ok items)
    (hmin : toInt32 items.length < alertSpec.reportStatus.minNodes) :
    ∃ rest, (PollNode clientset nowSeconds alertSpec tickertime).1 =
        Event.listNodes alertSpec.nodeFilter ::
          Event.dispatch alertSpec.alerterType alertSpec.alerterName
            (minNodesMsg alertSpec.nodeFilter) :: rest ∧
      rest.countP (fun ev => ev.message == some (minNodesMsg alertSpec.nodeFilter)) = 0 := by
  refine ⟨(pollLoop clientset nowSeconds (normalizeSpec alertSpec) tickertime items).1, ?_, ?_⟩
  · rw [PollNode_wildcard_def clientset nowSeconds alertSpec tickertime items hname hlist,
      if_pos hmin]
    rfl
  · refine List.countP_eq_zero.mpr fun ev hev => ?_
    rcases pollLoop_events clientset nowSeconds (normalizeSpec alertSpec) tickertime items ev hev
      with hf | ⟨m, hm, rfl⟩
    · rcases ev with n | s | ⟨a, b, m2⟩
      · simp [Event.message]
      · simp [Event.message]
      · simp [Event.isFetchByName] at hf
    · rw [normalizeSpec_name, hname] at hm
      rcases nodeMsgs_star_shape m hm with ⟨t0, rfl⟩
      simp only [Event.message, beq_iff_eq, Option.some.injEq]
      intro hEq
      exact minNodesMsg_ne_star_msg alertSpec.nodeFilter t0 hEq.symm

/-- C3 witness: with `minNodes = 5` and two matching nodes, the under-minimum
dispatch fires once, before the per-node checks. -/
theorem pollNode_under_min_dispatch_witness :
    ∃ rest, (PollNode wCluster 100
        { wSpec with reportStatus := { wReport with minNodes := 5 } } 10).1 =
        Event.listNodes "role=worker" ::
          Event.dispatch "smtp" "ops" (minNodesMsg "role=worker") :: rest ∧
      rest.countP (fun ev => ev.message == some (minNodesMsg "role=worker")) = 0 :=
  pollNode_under_min_dispatch wCluster 100
    { wSpec with reportStatus := { wReport with minNodes := 5 } } 10 [wNode1, wNode2]
    rfl rfl (by decide)

/-- C5: for a wildcard spec whose list succeeds, `PollNode` returns no error
exactly when every listed node re-fetches successfully; on full success every
listed node is individually re-fetched (and then checked) in list order; and a
failing re-fetch ends the cycle at that node — the trace covers only the nodes
before it plus the failed fetch, and the fetch error is returned. -/
theorem pollNode_filtered_refetch (clientset : Cluster) (nowSeconds : Int)
    (alertSpec : NodeAlertSpec) (tickertime : Int) (items : List Node)
    (hname : alertSpec.name = "*")
    (hlist : clientset.listNodes alertSpec.nodeFilter = .ok items) :
    ((PollNode clientset nowSeconds alertSpec tickertime).2 = none ↔
      ∀ nd ∈ items, (clientset.getNode nd.name).isOk = true) ∧
    ((∀ nd ∈ items, (clientset.getNode nd.name).isOk = true) →
      (PollNode clientset nowSeconds alertSpec tickertime).1 =
        Event.listNodes alertSpec.nodeFilter ::
          ((if toInt32 items.length < alertSpec.reportStatus.minNodes then
              [Event.dispatch alertSpec.alerterType alertSpec.alerterName
                (minNodesMsg alertSpec.nodeFilter)]
            else []) ++
            items.flatMap
              (evalNodeTrace clientset nowSeconds (normalizeSpec alertSpec) tickertime))) ∧
    (∀ pre bad post e, items = pre ++ bad :: post →
      (∀ nd ∈ pre, (clientset.getNode nd.name).isOk = true) →
      clientset.getNode bad.name = .error e →
      PollNode clientset nowSeconds alertSpec tickertime =
        (Event.listNodes alertSpec.nodeFilter ::
          ((if toInt32 items.length < alertSpec.reportStatus.minNodes then
              [Event.dispatch alertSpec.alerterType alertSpec.alerterName
                (minNodesMsg alertSpec.nodeFilter)]
            else []) ++
            (pre.flatMap
              (evalNodeTrace clientset nowSeconds (normalizeSpec alertSpec) tickertime) ++
              [Event.fetchByName bad.name])),
          some (getNodeErrMsg bad.name e))) := by
  refine ⟨?_, ?_, ?_⟩
  · rw [PollNode_wildcard_def clientset nowSeconds alertSpec tickertime items hname hlist]
    exact pollLoop_none_iff clientset nowSeconds (normalizeSpec alertSpec) tickertime items
  · intro hall
    rw [PollNode_wildcard_def clientset nowSeconds alertSpec tickertime items hname hlist,
      pollLoop_all_ok clientset nowSeconds (normalizeSpec alertSpec) tickertime items hall]
  · intro pre bad post e hitems hpre hbad
    subst hitems
    rw [PollNode_wildcard_def clientset nowSeconds alertSpec tickertime _ hname hlist,
      pollLoop_first_err clientset nowSeconds (normalizeSpec alertSpec) tickertime pre post
        bad e hpre hbad]

/-- C5 witness: over the fixture cluster, where both listed nodes re-fetch
successfully, the poll reports no error. -/
theorem pollNode_filtered_refetch_witness :
    (PollNode wCluster 100 wSpec 10).2 = none ↔
      ∀ nd ∈ [wNode1, wNode2], (wCluster.getNode nd.name).isOk = true :=
  (pollNode_filtered_refetch wCluster 100 wSpec 10 [wNode1, wNode2] rfl rfl).1

/-- C8 (amended): a zero `pendingThreshold` is replaced by the default 10
before evaluation, so a spec with threshold zero behaves exactly like the same
spec with threshold 10; for any non-negative configured threshold the value
used during evaluation is positive. (A negative configured threshold is kept
as-is, which is what bars the unconditional positivity claim.) -/
theorem pollNode_pending_threshold_default (clientset : Cluster) (nowSeconds : Int)
    (alertSpec : NodeAlertSpec) (tickertime : Int) :
    (0 ≤ alertSpec.reportStatus.pendingThreshold →
      0 < (normalizeSpec alertSpec).reportStatus.pendingThreshold) ∧
    (alertSpec.reportStatus.pendingThreshold = 0 →
      PollNode clientset nowSeconds alertSpec tickertime =
        PollNode clientset nowSeconds
          { alertSpec with reportStatus :=
            { alertSpec.reportStatus with pendingThreshold := 10 } } tickertime) := by
  constructor
  · intro h0
    unfold normalizeSpec
    by_cases hz : alertSpec.reportStatus.pendingThreshold = 0
    · rw [if_pos hz]
      show (0 : Int) < 10
      decide
    · rw [if_neg hz]
      omega
  · intro hz
    have hnorm : normalizeSpec alertSpec =
        normalizeSpec { alertSpec with reportStatus :=
          { alertSpec.reportStatus with pendingThreshold := 10 } } := by
      unfold normalizeSpec
      rw [if_pos hz, if_neg (by simp)]
    simp only [PollNode, hnorm]

/-- C8 witness: the fixture spec with threshold zero polls identically to the
same spec with threshold 10, and the value used is positive. -/
theorem pollNode_pending_threshold_default_witness :
    (0 < (normalizeSpec { wSpec with reportStatus :=
        { wReport with pendingThreshold := 0 } }).reportStatus.pendingThreshold) ∧
    PollNode wCluster 100
        { wSpec with reportStatus := { wReport with pendingThreshold := 0 } } 10 =
      PollNode wCluster 100
        { wSpec with reportStatus := { wReport with pendingThreshold := 10 } } 10 :=
  ⟨(pollNode_pending_threshold_default wCluster 100
      { wSpec with reportStatus := { wReport with pendingThreshold := 0 } } 10).1 (by decide),
    (pollNode_pending_threshold_default wCluster 100
      { wSpec with reportStatus := { wReport with pendingThreshold := 0 } } 10).2 rfl⟩

/-- Counterexample fixture: a spec configured with a negative threshold. -/
def wSpecNeg : NodeAlertSpec :=
  { wSpec with reportStatus := { wReport with pendingThreshold := -1 } }

/-- Counterexample fixture: a node created at the very poll instant. -/
def wNodeNew : Node :=
  { name := "new", creationTimestamp := 100,
    conditions := [{ type := "Ready", lastTransitionTime := 95 }] }

/-- C8 counterexample: a configured threshold of −1 survives normalization, so
the value used during evaluation is not positive — a zero-age node is even
evaluated and alerts, which a positive threshold would forbid. -/
theorem pendingThreshold_negative_counterexample :
    (normalizeSpec wSpecNeg).reportStatus.pendingThreshold = -1 ∧
    ¬ 0 < (normalizeSpec wSpecNeg).reportStatus.pendingThreshold ∧
    checkNode 100 wNodeNew (normalizeSpec wSpecNeg) 10 =
      [Event.dispatch "smtp" "ops" (readyMsg "*")] := by
  refine ⟨by decide, by decide, by decide⟩

end K8eraid
